import Mathlib

/-!
Verification development for SimpleAzureJobRunner
(deploy/utils: azure_vms.py, install_extensions.py, remove_orphaned_accounts.py).

The Python modules are shallowly embedded as pure Lean functions:
* wall-clock time (`time.time()`) is modelled as a `Nat` parameter `now`
  supplied by callers; `time.sleep` advances the clock by the sleep interval;
* Azure SDK / `az` CLI interactions are modelled as oracles passed in as
  function arguments, and the commands the code issues are recorded in an
  event trace;
* exceptions raised by the Azure SDK are modelled by an explicit outcome
  argument (`StartOutcome`) / `Except` results of the oracles.
-/

/-! ### VM state model (azure_vms.py, class AzureVmState) -/

def DEALLOCATED : String := "PowerState/deallocated"

def DEALLOCATING : String := "PowerState/deallocating"

def RUNNING : String := "PowerState/running"

def STARTING : String := "PowerState/starting"

def STOPPED : String := "PowerState/stopped"

def KNOWN_STATES : List String := [DEALLOCATED, DEALLOCATING, RUNNING, STARTING, STOPPED]

structure AzureVmState where
  name : String
  state : String
  is_linux : Bool
  is_windows : Bool
  subscription_id : String
  resource_group : String
  starting : Bool
  deallocating : Bool
  start_time : Nat
  deallocate_time : Nat
deriving DecidableEq, Repr

/-- `AzureVmState.__init__`: the `assert self.is_linux != self.is_windows`
invariant check makes construction fail (raise) when the two flags agree,
modelled by returning `none`. -/
def mkAzureVmState (name state : String) (is_linux is_windows : Bool) (now : Nat) :
    Option AzureVmState :=
  if is_linux == is_windows then
    none
  else
    some
      { name := name
        state := state
        is_linux := is_linux
        is_windows := is_windows
        subscription_id := ""
        resource_group := ""
        starting := state == STARTING
        deallocating := state == DEALLOCATING
        start_time := if state == STARTING then now else 0
        deallocate_time := if state == DEALLOCATING then now else 0 }

def AzureVmState.is_unknown_state (v : AzureVmState) : Bool :=
  !(KNOWN_STATES.contains v.state)

def AzureVmState.is_running (v : AzureVmState) : Bool :=
  v.state == RUNNING

def AzureVmState.is_starting_or_running (v : AzureVmState) : Bool :=
  v.is_running || (v.state == STARTING)

def AzureVmState.is_deallocated (v : AzureVmState) : Bool :=
  v.state == DEALLOCATING || v.state == DEALLOCATED || v.state == STOPPED

def AzureVmState.on_start (v : AzureVmState) (now : Nat) : AzureVmState :=
  { v with starting := true, start_time := now, state := STARTING, deallocating := false }

def AzureVmState.on_deallocate (v : AzureVmState) (now : Nat) : AzureVmState :=
  { v with starting := false, state := DEALLOCATING, deallocating := true,
           deallocate_time := now }

/-! ### Fleet controller (azure_vms.py, class AzureVms) -/

def AZURE_VM_RUNNING_MSG : String := "VM guest agent was detected running"

def DEFAULT_UNAVAILABLE_TIMEOUT : Nat := 600

/-- Python `needle in haystack` substring test. -/
def strContains (s pat : String) : Bool := decide (pat.data <:+: s.data)

/-- Model of `ioutils.get_exception_info`: formats the exception (the
traceback portion is not modelled; no claim depends on the text). -/
def exception_info (msg : String) : String := "### Exception: " ++ msg

structure AzureVms where
  subscription_id : String
  resource_group : String
  unavailable_timeout : Nat
  unavailable_retry_time : Nat
  unavailable_state : Bool
deriving DecidableEq, Repr

/-- Outcome of the `begin_start` SDK call inside `try_start_vm`:
success, a `ResourceExistsError` (conflict), or any other exception
carrying its `str(ex)` message. -/
inductive StartOutcome where
  | success
  | resourceExistsError (info : String)
  | otherError (msg : String)
deriving DecidableEq, Repr

inductive LogEvent where
  | info (msg : String)
  | warning (msg : String)
  | error (msg : String)
deriving DecidableEq, Repr

/-- Result of one `try_start_vm` call: updated controller, updated VM state,
whether `begin_start` was invoked, and the log lines emitted. -/
structure TryStartResult where
  az : AzureVms
  vm : AzureVmState
  start_requested : Bool
  logs : List LogEvent
deriving DecidableEq, Repr

/-- The `try` block of `AzureVms.try_start_vm` (reached when not in the
cool-down window): issue `begin_start` and handle its outcome. -/
def try_start_core (az : AzureVms) (vm : AzureVmState) (now : Nat) (outcome : StartOutcome) :
    TryStartResult :=
  let infoLog := LogEvent.info ("VM " ++ vm.name ++ " is deallocated, attempting restart...")
  match outcome with
  | .success => ⟨az, vm.on_start now, true, [infoLog]⟩
  | .resourceExistsError info =>
      ⟨{ az with unavailable_state := true,
                 unavailable_retry_time := now + az.unavailable_timeout },
       { vm with starting := false }, true,
       [infoLog, .error ("VM " ++ vm.name ++ " failed to start: " ++ exception_info info)]⟩
  | .otherError msg =>
      let vm2 := { vm with starting := false }
      if strContains msg AZURE_VM_RUNNING_MSG then
        ⟨az, vm2, true, [infoLog, .warning msg]⟩
      else
        ⟨az, vm2, true,
         [infoLog, .error ("VM " ++ vm.name ++ " failed to start: " ++ exception_info msg)]⟩

/-- `AzureVms.try_start_vm`. -/
def try_start_vm (az : AzureVms) (vm : AzureVmState) (now : Nat) (outcome : StartOutcome) :
    TryStartResult :=
  if az.unavailable_state then
    if now > az.unavailable_retry_time then
      try_start_core { az with unavailable_state := false, unavailable_retry_time := 0 }
        vm now outcome
    else
      ⟨az, vm, false,
       [.warning ("Ignoring request to start vm " ++ vm.name
           ++ " because of capacity restrictions...")]⟩
  else
    try_start_core az vm now outcome

/-! ### Extension reconciler (install_extensions.py) -/

/-- One invocation of `az_cmd.run_az_cmd`: the command string, the
human-readable description and the `no_data_ok` flag. -/
structure AzCall where
  cmd : String
  description : String
  no_data_ok : Bool
deriving DecidableEq, Repr

/-- The extension listing built by `list_extensions`: each installed
extension's `name` paired with its `provisioningState`.  Python stores the
whole record in a dict keyed by name; only the name key membership and the
provisioning state are ever read. -/
abbrev Extensions := List (String × String)

/-- `name in extensions` on the dict built by `list_extensions`. -/
def hasExtension (extensions : Extensions) (name : String) : Bool :=
  (extensions.lookup name).isSome

def list_extensions_call (vm : AzureVmState) (resource_group : String) : AzCall :=
  ⟨"vm extension list --resource-group " ++ resource_group ++ " --vm-name " ++ vm.name,
   "listing extensions on " ++ vm.name, false⟩

def get_monitor_agent_name (vm : AzureVmState) : String :=
  if vm.is_linux then "AzureMonitorLinuxAgent" else "AzureMonitorWindowsAgent"

/-- `check_monitor_agent` (the success branch also prints the provisioning
state; printing has no effect on the returned value). -/
def check_monitor_agent (vm : AzureVmState) (extensions : Extensions) : Bool :=
  hasExtension extensions (get_monitor_agent_name vm)

/-- `str.replace(" ", "")`. -/
def removeSpaces (s : String) : String := ⟨s.data.filter (fun c => c != ' ')⟩

/-- `json.dumps(settings).replace(" ", "")` for the fixed settings dict built
in `install_monitor_agent` (assumes the managed-identity resource id needs no
JSON character escaping, which holds for Azure resource ids). -/
def monitor_settings_json (managed_identity : String) : String :=
  removeSpaces
    ("\x7b\"authentication\": \x7b\"managedIdentity\": \x7b\"identifier-name\": \"mi_res_id\", \"identifier-value\": \""
      ++ managed_identity ++ "\"\x7d\x7d\x7d")

/-- The `run_az_cmd` invocation made by `install_monitor_agent`. -/
def install_monitor_agent_call (vm : AzureVmState)
    (subscription resource_group uami : String) : AzCall :=
  let name := get_monitor_agent_name vm
  let vm_id := "/subscriptions/" ++ subscription ++ "/resourceGroups/" ++ resource_group
      ++ "/providers/Microsoft.Compute/" ++ "virtualMachines/" ++ vm.name
  let cmd := "vm extension set --name " ++ name ++ " --publisher Microsoft.Azure.Monitor "
      ++ "--ids " ++ vm_id ++ " --enable-auto-upgrade true --no-wait"
  let cmd :=
    if vm.is_windows && uami != "" then
      let managed_identity := "/subscriptions/" ++ subscription ++ "/resourceGroups/"
          ++ resource_group ++ "/providers/"
          ++ "Microsoft.ManagedIdentity/userAssignedIdentities/" ++ uami
      cmd ++ " --settings \x27" ++ monitor_settings_json managed_identity ++ "\x27"
    else cmd
  ⟨cmd, "Installing monitor agent " ++ name ++ " on " ++ vm.name, true⟩

/-- `get_guest_configuration_extension_name`, returning
`(name, extension_name)`. -/
def get_guest_configuration_extension_name (vm : AzureVmState) : String × String :=
  if vm.is_windows then ("ConfigurationforWindows", "AzurePolicyforWindows")
  else ("ConfigurationForLinux", "AzurePolicyforLinux")

def check_guest_configuration_extension (vm : AzureVmState) (extensions : Extensions) : Bool :=
  hasExtension extensions (get_guest_configuration_extension_name vm).2

def install_guest_configuration_extension_call (vm : AzureVmState)
    (resource_group : String) : AzCall :=
  let p := get_guest_configuration_extension_name vm
  ⟨"vm extension set --publisher Microsoft.GuestConfiguration --name " ++ p.1 ++ " "
    ++ "--extension-instance-name " ++ p.2 ++ " --resource-group " ++ resource_group ++ " "
    ++ "--vm-name " ++ vm.name ++ " --enable-auto-upgrade true --no-wait",
   "Installing guest extensions on " ++ vm.name, true⟩

def get_aad_ssh_extension_name (vm : AzureVmState) : String :=
  if vm.is_windows then "AADLoginForWindows" else "AADSSHLoginForLinux"

def check_aad_ssh_login (vm : AzureVmState) (extensions : Extensions) : Bool :=
  hasExtension extensions (get_aad_ssh_extension_name vm)

def install_aad_ssh_login_call (vm : AzureVmState) (resource_group : String) : AzCall :=
  ⟨"vm extension set --publisher Microsoft.Azure.ActiveDirectory --name "
    ++ get_aad_ssh_extension_name vm ++ " "
    ++ "--resource-group " ++ resource_group ++ " "
    ++ "--vm-name " ++ vm.name ++ " "
    ++ "--no-wait",
   "Installing aad ssh extension on " ++ vm.name, true⟩

def get_guest_attestation_extension_publisher (vm : AzureVmState) : String :=
  if vm.is_windows then "Microsoft.Azure.Security.WindowsAttestation"
  else "Microsoft.Azure.Security.LinuxAttestation"

def check_guest_attestation (_vm : AzureVmState) (extensions : Extensions) : Bool :=
  hasExtension extensions "GuestAttestation"

def install_guest_attestation_call (vm : AzureVmState) (resource_group : String) : AzCall :=
  ⟨"vm extension set --publisher " ++ get_guest_attestation_extension_publisher vm
    ++ " --name GuestAttestation "
    ++ "--resource-group " ++ resource_group ++ " "
    ++ "--vm-name " ++ vm.name ++ " "
    ++ "--no-wait",
   "Installing GuestAttestation extension on " ++ vm.name, true⟩

/-- The install commands issued by the second half of `process_vm`
(lines 179-189): each of the four `check_*` functions guards its
corresponding `install_*` call. -/
def extension_install_calls (vm : AzureVmState) (extensions : Extensions)
    (subscription_id resource_group uami : String) : List AzCall :=
  (if check_monitor_agent vm extensions then []
   else [install_monitor_agent_call vm subscription_id resource_group uami])
  ++ (if check_guest_configuration_extension vm extensions then []
      else [install_guest_configuration_extension_call vm resource_group])
  ++ (if check_aad_ssh_login vm extensions then []
      else [install_aad_ssh_login_call vm resource_group])
  ++ (if check_guest_attestation vm extensions then []
      else [install_guest_attestation_call vm resource_group])

/-- `p` is a leading part of `s`. -/
def strStartsWith (s p : String) : Bool := decide (p.data <+: s.data)

/-- Recognises the monitor-agent install command for `vm`: it opens with the
OS-specific agent name and the `Microsoft.Azure.Monitor` publisher. -/
def is_monitor_agent_install (vm : AzureVmState) (c : AzCall) : Bool :=
  strStartsWith c.cmd
    ("vm extension set --name " ++ get_monitor_agent_name vm
      ++ " --publisher Microsoft.Azure.Monitor ")

/-- Recognises the guest-configuration install command for `vm`: publisher
`Microsoft.GuestConfiguration` with the OS-specific name and
extension-instance-name. -/
def is_guest_configuration_install (vm : AzureVmState) (c : AzCall) : Bool :=
  strStartsWith c.cmd
    ("vm extension set --publisher Microsoft.GuestConfiguration --name "
      ++ (get_guest_configuration_extension_name vm).1 ++ " "
      ++ "--extension-instance-name " ++ (get_guest_configuration_extension_name vm).2)

/-- Recognises the AAD SSH login install command for `vm`: publisher
`Microsoft.Azure.ActiveDirectory` with the OS-specific login name. -/
def is_aad_ssh_install (vm : AzureVmState) (c : AzCall) : Bool :=
  strStartsWith c.cmd
    ("vm extension set --publisher Microsoft.Azure.ActiveDirectory --name "
      ++ get_aad_ssh_extension_name vm)

/-- Recognises the guest-attestation install command for `vm`: the
OS-specific attestation publisher with name `GuestAttestation`. -/
def is_guest_attestation_install (vm : AzureVmState) (c : AzCall) : Bool :=
  strStartsWith c.cmd
    ("vm extension set --publisher " ++ get_guest_attestation_extension_publisher vm
      ++ " --name GuestAttestation ")

/-! ### `Timeout` and `process_vm` (install_extensions.py) -/

/-- `Timeout.step`'s test `time.time() - self.start < self.timeout_seconds`;
when it holds the step sleeps `interval` seconds and answers `true`,
otherwise it prints the timeout message and answers `false`. -/
def timeout_step (timeout_seconds elapsed : Nat) : Bool :=
  decide (elapsed < timeout_seconds)

inductive VmEvent where
  | tryStart (name : String)
  | sleepFor (seconds : Nat)
  | refetch (name : String)
  | timeoutExpired (title : String)
  | azCmd (c : AzCall)
deriving DecidableEq, Repr

/-- The `while not vm.is_running() and timeout.step(): vm = get_vm_state(...)`
loop of `process_vm`.  `fetch k` is the VM state returned by the `k`-th
re-fetch; the clock is modelled as advancing by the sleep interval each
iteration (the network calls are treated as instantaneous).  `fuel` bounds
the recursion; the caller passes more fuel than the loop can ever use, since
each iteration adds `interval` to `elapsed` and the loop stops as soon as
`elapsed` reaches `timeout_seconds`. -/
def poll_loop (fetch : Nat → AzureVmState) (timeout_seconds interval : Nat) (title : String)
    (vm : AzureVmState) (elapsed k fuel : Nat) : List VmEvent × AzureVmState :=
  match fuel with
  | 0 => ([], vm)
  | Nat.succ f =>
    if vm.is_running then ([], vm)
    else if timeout_step timeout_seconds elapsed then
      let r := poll_loop fetch timeout_seconds interval title (fetch k)
          (elapsed + interval) (k + 1) f
      (VmEvent.sleepFor interval :: VmEvent.refetch vm.name :: r.1, r.2)
    else ([VmEvent.timeoutExpired title], vm)

/-- `process_vm`: event trace of one reconciler run over VM `vm`.
`outcome` is the result of the `begin_start` request should one be issued,
`fetch` the re-fetch oracle and `extensions` the listing returned by the
`vm extension list` call. -/
def process_vm_model (az : AzureVms) (vm : AzureVmState) (now : Nat) (outcome : StartOutcome)
    (fetch : Nat → AzureVmState) (extensions : Extensions)
    (subscription_id resource_group uami : String) : List VmEvent :=
  let tail := fun (v : AzureVmState) =>
    VmEvent.azCmd (list_extensions_call v resource_group)
      :: (extension_install_calls v extensions subscription_id resource_group uami).map
           VmEvent.azCmd
  if vm.is_running then tail vm
  else
    let r := try_start_vm az vm now outcome
    let lp := poll_loop fetch 600 15 ("starting vm " ++ vm.name) r.vm 0 0 601
    VmEvent.tryStart vm.name :: (lp.1 ++ tail lp.2)

/-! ### Orphan-role reconciler (remove_orphaned_accounts.py) -/

/-- Directory record returned by `az ad user show` (only these fields are
read, for printing). -/
structure AdUser where
  givenName : String
  surname : String
  userPrincipalName : String
deriving DecidableEq, Repr

/-- `az ad user show --id p` either returns a user record or raises with a
message text. -/
abbrev DirectoryOracle := String → Except String AdUser

/-- One record of the stale-identity report's `"Stale identities"` list. -/
structure StaleIdentity where
  RoleName : String
  PrincipalName : String
  Scope : String
  UserName : String
  IdentityType : String
  AssignmentType : String
deriving DecidableEq, Repr

/-- One record of an `az role assignment list` response. -/
structure RoleAssignment where
  id : String
  principalId : String
  principalName : String
  principalType : String
  scope : String
deriving DecidableEq, Repr

def get_unique_users (stale : List StaleIdentity) : List String :=
  (stale.map (fun i => i.UserName)).dedup

/-- The per-principal decision of `check_orphans`'s loop: a principal is
added to `to_remove` when the directory lookup succeeds (a real user) or
when it fails with anything other than a "does not exist" message. -/
def should_remove_from_report (lookup : DirectoryOracle) (principal_id : String) : Bool :=
  match lookup principal_id with
  | .ok _ => true
  | .error msg => !(strContains msg "does not exist")

def report_to_remove (lookup : DirectoryOracle) (stale : List StaleIdentity) : List String :=
  (get_unique_users stale).filter (should_remove_from_report lookup)

/-- `check_orphans`: returns the filtered `"Stale identities"` list, the
reported removed count `len(before) - len(after)` and the function's boolean
result `removed > 0`. -/
def check_orphans (lookup : DirectoryOracle) (stale : List StaleIdentity) :
    List StaleIdentity × Nat × Bool :=
  let to_remove := report_to_remove lookup stale
  let after := to_remove.foldl
      (fun acc principal_id => acc.filter (fun identity => identity.UserName != principal_id))
      stale
  let removed := stale.length - after.length
  (after, removed, decide (removed > 0))

inductive OrphanEvent where
  | adUserLookup (principal_id : String)
  | listRolesForScope (scope : String)
  | collectOrphan (principal_id : String) (role_id : String) (scope : String)
  | dryRunScope (scope : String) (count : Nat)
  | dryRunRole (role_id : String)
  | removeScopeMsg (scope : String) (count : Nat)
  | deleteRole (role_id : String)
deriving DecidableEq, Repr

/-- Python `set.add` on a set modelled as a duplicate-free list. -/
def insert_unique (l : List String) (x : String) : List String :=
  if l.contains x then l else l ++ [x]

/-- `roles_by_scope[scope].add(role_id)`, creating the scope's set when the
key is absent (a Python dict keyed by scope, modelled as an association list
with unique keys; the sets are duplicate-free lists). -/
def add_role_for_scope : List (String × List String) → String → String →
    List (String × List String)
  | [], scope, role_id => [(scope, [role_id])]
  | (k, v) :: rest, scope, role_id =>
      if k == scope then (k, insert_unique v role_id) :: rest
      else (k, v) :: add_role_for_scope rest scope role_id

/-- Loop body of `find_orphaned_roles`: accumulator is
`(known_good_users, orphaned_roles_by_scope, events)`. -/
def find_orphaned_roles_step (lookup : DirectoryOracle)
    (acc : List String × List (String × List String) × List OrphanEvent)
    (item : RoleAssignment) :
    List String × List (String × List String) × List OrphanEvent :=
  let known_good_users := acc.1
  let orphaned := acc.2.1
  let events := acc.2.2
  if item.principalType != "User" then acc
  else if known_good_users.contains item.principalId then acc
  else
    let kg := known_good_users ++ [item.principalId]
    let events2 := events ++ [OrphanEvent.adUserLookup item.principalId]
    match lookup item.principalId with
    | .ok _ => (kg, orphaned, events2)
    | .error msg =>
      if strContains msg "does not exist" then
        (kg, add_role_for_scope orphaned item.scope item.id,
         events2 ++ [OrphanEvent.collectOrphan item.principalId item.id item.scope])
      else (kg, orphaned, events2)

/-- `find_orphaned_roles` over the full `role assignment list --all`
response. -/
def find_orphaned_roles (lookup : DirectoryOracle) (assignments : List RoleAssignment) :
    List (String × List String) × List OrphanEvent :=
  let r := assignments.foldl (find_orphaned_roles_step lookup) ([], [], [])
  (r.2.1, r.2.2)

/-- The inner loop `for item in all_roles: if item["principalId"] ==
principal_id: roles_to_remove_by_scope[scope].add(item["id"])` of the
report-driven branch of `remove_orphaned_account`. -/
def collect_matching_roles (scope principal_id : String)
    (all_roles : List RoleAssignment) (m : List (String × List String)) :
    List (String × List String) :=
  all_roles.foldl
    (fun m2 item =>
      if item.principalId == principal_id then add_role_for_scope m2 scope item.id else m2)
    m

/-- Loop body of the report-driven collection in `remove_orphaned_account`:
accumulator is `(fetched_scopes, roles_to_remove_by_scope, events)`; the
role-assignment listing for a scope is fetched once and cached. -/
def collect_report_roles_step (listRoles : String → List RoleAssignment)
    (acc : List String × List (String × List String) × List OrphanEvent)
    (identity : StaleIdentity) :
    List String × List (String × List String) × List OrphanEvent :=
  let fetched := acc.1
  let roles_to_remove := acc.2.1
  let events := acc.2.2
  let principal_id := identity.UserName
  let scope := identity.Scope
  let fetched2 := if fetched.contains scope then fetched else fetched ++ [scope]
  let events2 := if fetched.contains scope then events
      else events ++ [OrphanEvent.listRolesForScope scope]
  (fetched2, collect_matching_roles scope principal_id (listRoles scope) roles_to_remove,
   events2)

/-- The deletion phase at the end of `remove_orphaned_account`: in dry-run
mode it only prints; otherwise it deletes role ids one by one, accumulating
per-id failure messages. -/
def delete_phase (deleteOutcome : String → Except String Unit) (dry_run : Bool)
    (roles_to_remove : List (String × List String)) : List OrphanEvent × List String :=
  roles_to_remove.foldl
    (fun acc p =>
      let scope := p.1
      let roles := p.2
      if dry_run then
        (acc.1 ++ [OrphanEvent.dryRunScope scope roles.length]
           ++ roles.map OrphanEvent.dryRunRole, acc.2)
      else
        roles.foldl
          (fun acc2 role_id =>
            let ev := acc2.1 ++ [OrphanEvent.deleteRole role_id]
            match deleteOutcome role_id with
            | .ok _ => (ev, acc2.2)
            | .error msg =>
                (ev, acc2.2 ++ ["Failed to remove role " ++ role_id ++ ": " ++ msg]))
          (acc.1 ++ [OrphanEvent.removeScopeMsg scope roles.length], acc.2))
    ([], [])

/-- `remove_orphaned_account` in report-driven mode (a json file was
supplied and its `"Stale identities"` list is `data`).  Returns the
collected `roles_to_remove_by_scope`, the event trace and the accumulated
error messages. -/
def remove_orphaned_account_report (lookup : DirectoryOracle)
    (listRoles : String → List RoleAssignment)
    (deleteOutcome : String → Except String Unit)
    (data : List StaleIdentity) (dry_run : Bool) :
    List (String × List String) × List OrphanEvent × List String :=
  let stale := (check_orphans lookup data).1
  if stale.isEmpty then ([], [], [])
  else
    let r := stale.foldl (collect_report_roles_step listRoles) ([], [], [])
    let roles_to_remove := r.2.1
    let events := r.2.2
    if roles_to_remove.isEmpty then (roles_to_remove, events, [])
    else
      let d := delete_phase deleteOutcome dry_run roles_to_remove
      (roles_to_remove, events ++ d.1, d.2)

/-! ### Event classifiers used in the statements -/

def isSleepEvent (e : VmEvent) : Bool :=
  match e with
  | .sleepFor _ => true
  | _ => false

def isListRolesForScopeEvent (scope : String) (e : OrphanEvent) : Bool :=
  e == OrphanEvent.listRolesForScope scope

def isDeleteRoleEvent (e : OrphanEvent) : Bool :=
  match e with
  | .deleteRole _ => true
  | _ => false

def isAdUserLookupEvent (principal_id : String) (e : OrphanEvent) : Bool :=
  e == OrphanEvent.adUserLookup principal_id

def isCollectOrphanEvent (principal_id : String) (e : OrphanEvent) : Bool :=
  match e with
  | .collectOrphan q _ _ => q == principal_id
  | _ => false

/-! ### Helper lemmas -/

theorem strStartsWith_append (p r : String) : strStartsWith (p ++ r) p = true := by
  simp only [strStartsWith, String.data_append, decide_eq_true_eq]
  exact List.prefix_append p.data r.data

theorem isPrefix_of_isPrefix_append {α : Type} {p q : List α} (r : List α)
    (h : p <+: q) : p <+: q ++ r :=
  h.trans (List.prefix_append q r)

theorem not_isPrefix_append {α : Type} {p q : List α} (r : List α)
    (h1 : ¬ p <+: q) (h2 : ¬ q <+: p) : ¬ p <+: q ++ r := by
  intro h
  rcases List.prefix_or_prefix_of_prefix h (List.prefix_append q r) with hp | hq
  · exact h1 hp
  · exact h2 hq

theorem not_isPrefix_head {α : Type} {p₀ q : List α} (p₁ r : List α)
    (h1 : ¬ p₀ <+: q) (h2 : ¬ q <+: p₀) : ¬ p₀ ++ p₁ <+: q ++ r := by
  intro h
  exact not_isPrefix_append r h1 h2 ((List.prefix_append p₀ p₁).trans h)

theorem try_start_core_requested (az : AzureVms) (vm : AzureVmState) (now : Nat)
    (o : StartOutcome) : (try_start_core az vm now o).start_requested = true := by
  cases o with
  | success => rfl
  | resourceExistsError info => rfl
  | otherError msg =>
      simp only [try_start_core]
      split <;> rfl

/-! ### Claim theorems -/

/-- C6: for every VmState, regardless of the power-state string it holds,
`on_start()` sets `starting` to true, records the start time, sets the state
field to the starting classification, clears `deallocating`, and
`is_starting_or_running()` invoked immediately afterwards returns true. -/
theorem on_start_forces_starting (v : AzureVmState) (now : Nat) :
    (v.on_start now).starting = true
    ∧ (v.on_start now).start_time = now
    ∧ (v.on_start now).state = STARTING
    ∧ (v.on_start now).deallocating = false
    ∧ (v.on_start now).is_starting_or_running = true :=
  ⟨rfl, rfl, rfl, rfl, rfl⟩

/-- C5: constructing a VmState fails (the `assert` raises) exactly when
`is_linux` equals `is_windows`, succeeds whenever exactly one of the two is
true, and every successfully constructed VmState satisfies the
mutual-exclusivity invariant. -/
theorem mkAzureVmState_mutual_exclusion (name state : String) (l w : Bool) (now : Nat) :
    (mkAzureVmState name state l w now = none ↔ l = w)
    ∧ ((mkAzureVmState name state l w now).isSome = true ↔ l ≠ w)
    ∧ (∀ v, mkAzureVmState name state l w now = some v →
        v.is_linux = l ∧ v.is_windows = w ∧ v.is_linux ≠ v.is_windows) := by
  refine ⟨?_, ?_, ?_⟩
  · cases l <;> cases w <;> simp [mkAzureVmState]
  · cases l <;> cases w <;> simp [mkAzureVmState]
  · intro v h
    cases l <;> cases w <;> simp [mkAzureVmState] at h <;>
      simp [← h]

/-- Witness for C5 at concrete inputs: both-Linux-and-Windows is rejected,
Linux-only is accepted and satisfies the invariant. -/
theorem mkAzureVmState_mutual_exclusion_witness :
    mkAzureVmState "vm0" "PowerState/running" true true 0 = none
    ∧ (mkAzureVmState "vm0" "PowerState/running" true false 0).isSome = true := by
  have h1 := mkAzureVmState_mutual_exclusion "vm0" "PowerState/running" true true 0
  have h2 := mkAzureVmState_mutual_exclusion "vm0" "PowerState/running" true false 0
  exact ⟨h1.1.mpr rfl, h2.2.1.mpr (by decide)⟩

/-- C1: while `unavailable_state` is set and the current time has not passed
`unavailable_retry_time`, `try_start_vm` issues no start request and leaves
controller and VmState unchanged (only a warning is logged); the first call
whose time exceeds the retry time clears the suppression (resetting the
retry time) before attempting the start; and after a conflict error, a
second call within the cool-down window is a no-op, so exactly one start
attempt is made. -/
theorem try_start_vm_cooldown_window (az : AzureVms) (vm : AzureVmState)
    (t0 t1 : Nat) (o o2 : StartOutcome) (info : String) :
    (az.unavailable_state = true → t0 ≤ az.unavailable_retry_time →
      try_start_vm az vm t0 o =
        ⟨az, vm, false,
         [.warning ("Ignoring request to start vm " ++ vm.name
             ++ " because of capacity restrictions...")]⟩)
    ∧ (az.unavailable_state = true → az.unavailable_retry_time < t0 →
        try_start_vm az vm t0 o =
          try_start_core { az with unavailable_state := false, unavailable_retry_time := 0 }
            vm t0 o
        ∧ (try_start_vm az vm t0 o).start_requested = true)
    ∧ (az.unavailable_state = false → t1 ≤ t0 + az.unavailable_timeout →
        (try_start_vm az vm t0 (.resourceExistsError info)).start_requested = true
        ∧ try_start_vm (try_start_vm az vm t0 (.resourceExistsError info)).az
            (try_start_vm az vm t0 (.resourceExistsError info)).vm t1 o2 =
          ⟨(try_start_vm az vm t0 (.resourceExistsError info)).az,
           (try_start_vm az vm t0 (.resourceExistsError info)).vm, false,
           [.warning ("Ignoring request to start vm "
               ++ (try_start_vm az vm t0 (.resourceExistsError info)).vm.name
               ++ " because of capacity restrictions...")]⟩) := by
  refine ⟨?_, ?_, ?_⟩
  · intro h1 h2
    simp [try_start_vm, h1, Nat.not_lt.mpr h2]
  · intro h1 h2
    constructor
    · simp [try_start_vm, h1, h2]
    · simp only [try_start_vm, h1, if_true, gt_iff_lt, h2, if_pos]
      exact try_start_core_requested _ _ _ _
  · intro h1 h2
    constructor
    · simp only [try_start_vm, h1, Bool.false_eq_true, if_false]
      exact try_start_core_requested _ _ _ _
    · simp only [try_start_vm, h1, Bool.false_eq_true, if_false, try_start_core]
      simp [Nat.not_lt.mpr h2]

/-- Witness for C1: a suppressed controller at time 50 with retry time 100
drops the request, and after a conflict at time 0 with timeout 600 a second
call at time 600 is a no-op. -/
theorem try_start_vm_cooldown_window_witness :
    (try_start_vm ⟨"s", "g", 600, 100, true⟩
        ⟨"vm1", "PowerState/deallocated", true, false, "", "", false, false, 0, 0⟩
        50 .success =
      ⟨⟨"s", "g", 600, 100, true⟩,
       ⟨"vm1", "PowerState/deallocated", true, false, "", "", false, false, 0, 0⟩, false,
       [.warning ("Ignoring request to start vm vm1 because of capacity restrictions...")]⟩)
    ∧ (try_start_vm ⟨"s", "g", 600, 0, false⟩
          ⟨"vm1", "PowerState/deallocated", true, false, "", "", false, false, 0, 0⟩
          0 (.resourceExistsError "conflict")).start_requested = true
    ∧ try_start_vm
        (try_start_vm ⟨"s", "g", 600, 0, false⟩
          ⟨"vm1", "PowerState/deallocated", true, false, "", "", false, false, 0, 0⟩
          0 (.resourceExistsError "conflict")).az
        (try_start_vm ⟨"s", "g", 600, 0, false⟩
          ⟨"vm1", "PowerState/deallocated", true, false, "", "", false, false, 0, 0⟩
          0 (.resourceExistsError "conflict")).vm 600 .success =
      ⟨(try_start_vm ⟨"s", "g", 600, 0, false⟩
          ⟨"vm1", "PowerState/deallocated", true, false, "", "", false, false, 0, 0⟩
          0 (.resourceExistsError "conflict")).az,
       (try_start_vm ⟨"s", "g", 600, 0, false⟩
          ⟨"vm1", "PowerState/deallocated", true, false, "", "", false, false, 0, 0⟩
          0 (.resourceExistsError "conflict")).vm, false,
       [.warning ("Ignoring request to start vm "
           ++ (try_start_vm ⟨"s", "g", 600, 0, false⟩
                 ⟨"vm1", "PowerState/deallocated", true, false, "", "", false, false, 0, 0⟩
                 0 (.resourceExistsError "conflict")).vm.name
           ++ " because of capacity restrictions...")]⟩ := by
  have h1 := try_start_vm_cooldown_window ⟨"s", "g", 600, 100, true⟩
      ⟨"vm1", "PowerState/deallocated", true, false, "", "", false, false, 0, 0⟩
      50 600 .success .success "conflict"
  have h2 := try_start_vm_cooldown_window ⟨"s", "g", 600, 0, false⟩
      ⟨"vm1", "PowerState/deallocated", true, false, "", "", false, false, 0, 0⟩
      0 600 .success .success "conflict"
  have e1 := h1.1 rfl (by decide)
  have e2 := h2.2.2 rfl (by decide)
  refine ⟨?_, e2.1, e2.2⟩
  rw [e1]
  rfl

/-- C2: in `try_start_vm`, a conflict (`ResourceExistsError`) sets
`unavailable_state`, sets the resume timestamp to the current time plus
`unavailable_timeout` (whose default is 600 seconds), and clears
`vm.starting`; every other exception also clears `vm.starting`, with the
message text deciding only whether the log is a warning (benign guest-agent
substring present) or an error. -/
theorem try_start_vm_exception_paths (az : AzureVms) (vm : AzureVmState) (now : Nat)
    (info msg : String) (h : az.unavailable_state = false) :
    DEFAULT_UNAVAILABLE_TIMEOUT = 600
    ∧ try_start_vm az vm now (.resourceExistsError info) =
        ⟨{ az with unavailable_state := true,
                   unavailable_retry_time := now + az.unavailable_timeout },
         { vm with starting := false }, true,
         [.info ("VM " ++ vm.name ++ " is deallocated, attempting restart..."),
          .error ("VM " ++ vm.name ++ " failed to start: " ++ exception_info info)]⟩
    ∧ (try_start_vm az vm now (.otherError msg)).vm = { vm with starting := false }
    ∧ (strContains msg AZURE_VM_RUNNING_MSG = true →
        (try_start_vm az vm now (.otherError msg)).logs =
          [.info ("VM " ++ vm.name ++ " is deallocated, attempting restart..."),
           .warning msg])
    ∧ (strContains msg AZURE_VM_RUNNING_MSG = false →
        (try_start_vm az vm now (.otherError msg)).logs =
          [.info ("VM " ++ vm.name ++ " is deallocated, attempting restart..."),
           .error ("VM " ++ vm.name ++ " failed to start: " ++ exception_info msg)]) := by
  refine ⟨rfl, ?_, ?_, ?_, ?_⟩
  · simp [try_start_vm, try_start_core, h]
  · simp only [try_start_vm, h, Bool.false_eq_true, if_false, try_start_core]
    split <;> rfl
  · intro hm
    simp [try_start_vm, try_start_core, h, hm]
  · intro hm
    simp [try_start_vm, try_start_core, h, hm]

/-- Witness for C2: a conflict at time 7 with timeout 600 suppresses until
607 and clears `starting`; a benign-message exception logs a warning, any
other message logs an error, both clearing `starting`. -/
theorem try_start_vm_exception_paths_witness :
    DEFAULT_UNAVAILABLE_TIMEOUT = 600
    ∧ try_start_vm ⟨"s", "g", 600, 0, false⟩
        ⟨"vm1", "PowerState/deallocated", true, false, "", "", true, false, 0, 0⟩
        7 (.resourceExistsError "conflict") =
      ⟨⟨"s", "g", 600, 607, true⟩,
       ⟨"vm1", "PowerState/deallocated", true, false, "", "", false, false, 0, 0⟩, true,
       [.info ("VM vm1 is deallocated, attempting restart..."),
        .error ("VM vm1 failed to start: " ++ exception_info "conflict")]⟩
    ∧ (try_start_vm ⟨"s", "g", 600, 0, false⟩
        ⟨"vm1", "PowerState/deallocated", true, false, "", "", true, false, 0, 0⟩
        7 (.otherError "the VM guest agent was detected running but...")).logs =
      [.info ("VM vm1 is deallocated, attempting restart..."),
       .warning "the VM guest agent was detected running but..."] := by
  have h := try_start_vm_exception_paths ⟨"s", "g", 600, 0, false⟩
      ⟨"vm1", "PowerState/deallocated", true, false, "", "", true, false, 0, 0⟩
      7 "conflict" "the VM guest agent was detected running but..." rfl
  refine ⟨h.1, ?_, ?_⟩
  · rw [h.2.1]
    rfl
  · rw [h.2.2.2.1 (by decide)]
    rfl

/-- C7: a report whose stale list holds exactly two entries sharing one
principal id that resolves to a real directory user is filtered to the empty
list, and the reported removed count `len(before) - len(after)` equals 2. -/
theorem check_orphans_removes_resolved_pair (lookup : DirectoryOracle)
    (e1 e2 : StaleIdentity) (p : String) (usr : AdUser)
    (h1 : e1.UserName = p) (h2 : e2.UserName = p) (hl : lookup p = .ok usr) :
    check_orphans lookup [e1, e2] = ([], 2, true) := by
  have hd : get_unique_users [e1, e2] = [p] := by
    simp only [get_unique_users, List.map_cons, List.map_nil, h1, h2]
    rw [List.dedup_cons_of_mem (List.mem_singleton.mpr rfl)]
    rw [List.dedup_cons_of_not_mem (List.not_mem_nil p), List.dedup_nil]
  simp [check_orphans, report_to_remove, hd, should_remove_from_report, hl, h1, h2]

/-- Witness for C7 at a concrete report and directory oracle. -/
theorem check_orphans_removes_resolved_pair_witness :
    check_orphans (fun _ => Except.ok ⟨"Given", "Sur", "user@contoso.com"⟩)
      [⟨"Reader", "pn", "/sub/x", "principal-1", "User", "Permanent"⟩,
       ⟨"Writer", "pn", "/sub/y", "principal-1", "User", "Permanent"⟩] = ([], 2, true) :=
  check_orphans_removes_resolved_pair _ _ _ "principal-1"
    ⟨"Given", "Sur", "user@contoso.com"⟩ rfl rfl rfl

theorem mem_insert_unique_self (l : List String) (x : String) : x ∈ insert_unique l x := by
  unfold insert_unique
  split
  · next h => exact List.mem_of_elem_eq_true h
  · exact List.mem_append_right l (List.mem_singleton.mpr rfl)

theorem mem_insert_unique_of_mem {l : List String} {y : String} (x : String) (h : y ∈ l) :
    y ∈ insert_unique l x := by
  unfold insert_unique
  split
  · exact h
  · exact List.mem_append_left _ h

theorem mem_of_mem_insert_unique {l : List String} {x y : String}
    (h : y ∈ insert_unique l x) : y ∈ l ∨ y = x := by
  unfold insert_unique at h
  split at h
  · exact Or.inl h
  · rcases List.mem_append.mp h with h1 | h2
    · exact Or.inl h1
    · exact Or.inr (List.mem_singleton.mp h2)

theorem add_role_mem_self (m : List (String × List String)) (scope rid : String) :
    ∃ rids, (scope, rids) ∈ add_role_for_scope m scope rid ∧ rid ∈ rids := by
  induction m with
  | nil => exact ⟨[rid], List.mem_singleton.mpr rfl, List.mem_singleton.mpr rfl⟩
  | cons kv rest ih =>
      obtain ⟨k, v⟩ := kv
      unfold add_role_for_scope
      split
      · next h =>
          have hk : k = scope := eq_of_beq h
          subst hk
          exact ⟨insert_unique v rid, List.mem_cons_self _ _, mem_insert_unique_self v rid⟩
      · obtain ⟨rids, hmem, hr⟩ := ih
        exact ⟨rids, List.mem_cons_of_mem _ hmem, hr⟩

theorem add_role_mono {m : List (String × List String)} {sc r : String}
    {rids : List String} (scope rid : String)
    (hmem : (sc, rids) ∈ m) (hr : r ∈ rids) :
    ∃ rids2, (sc, rids2) ∈ add_role_for_scope m scope rid ∧ r ∈ rids2 := by
  induction m with
  | nil => cases hmem
  | cons kv rest ih =>
      obtain ⟨k, v⟩ := kv
      unfold add_role_for_scope
      rcases List.mem_cons.mp hmem with heq | hrest
      · cases heq
        split
        · exact ⟨insert_unique rids rid, List.mem_cons_self _ _,
            mem_insert_unique_of_mem rid hr⟩
        · exact ⟨rids, List.mem_cons_self _ _, hr⟩
      · split
        · exact ⟨rids, List.mem_cons_of_mem _ hrest, hr⟩
        · obtain ⟨rids2, h2, hr2⟩ := ih hrest
          exact ⟨rids2, List.mem_cons_of_mem _ h2, hr2⟩

theorem add_role_sound {m : List (String × List String)} {sc r : String}
    {rids : List String} {scope rid : String}
    (hmem : (sc, rids) ∈ add_role_for_scope m scope rid) (hr : r ∈ rids) :
    (∃ rids0, (sc, rids0) ∈ m ∧ r ∈ rids0) ∨ (sc = scope ∧ r = rid) := by
  induction m with
  | nil =>
      rcases List.mem_singleton.mp hmem with heq
      cases heq
      exact Or.inr ⟨rfl, List.mem_singleton.mp hr⟩
  | cons kv rest ih =>
      obtain ⟨k, v⟩ := kv
      unfold add_role_for_scope at hmem
      split at hmem
      · next h =>
          have hk : k = scope := eq_of_beq h
          subst hk
          rcases List.mem_cons.mp hmem with heq | hrest
          · cases heq
            rcases mem_of_mem_insert_unique hr with hv | hrid
            · exact Or.inl ⟨v, List.mem_cons_self _ _, hv⟩
            · exact Or.inr ⟨rfl, hrid⟩
          · exact Or.inl ⟨rids, List.mem_cons_of_mem _ hrest, hr⟩
      · rcases List.mem_cons.mp hmem with heq | hrest
        · cases heq
          exact Or.inl ⟨rids, List.mem_cons_self _ _, hr⟩
        · rcases ih hrest with ⟨rids0, h0, hr0⟩ | hright
          · exact Or.inl ⟨rids0, List.mem_cons_of_mem _ h0, hr0⟩
          · exact Or.inr hright

theorem collect_matching_mono (scope pid : String) (all_roles : List RoleAssignment) :
    ∀ (m : List (String × List String)) (sc r : String) (rids : List String),
      (sc, rids) ∈ m → r ∈ rids →
      ∃ rids2, (sc, rids2) ∈ collect_matching_roles scope pid all_roles m ∧ r ∈ rids2 := by
  induction all_roles with
  | nil => exact fun m sc r rids hm hr => ⟨rids, hm, hr⟩
  | cons a rest ih =>
      intro m sc r rids hm hr
      unfold collect_matching_roles
      simp only [List.foldl_cons]
      by_cases ha : (a.principalId == pid) = true
      · simp only [ha, if_true]
        obtain ⟨rids2, h2, hr2⟩ := add_role_mono scope a.id hm hr
        exact ih _ sc r rids2 h2 hr2
      · simp only [ha, if_false]
        exact ih m sc r rids hm hr

theorem collect_matching_complete (scope pid : String) (all_roles : List RoleAssignment) :
    ∀ (m : List (String × List String)) (a : RoleAssignment),
      a ∈ all_roles → a.principalId = pid →
      ∃ rids, (scope, rids) ∈ collect_matching_roles scope pid all_roles m ∧ a.id ∈ rids := by
  induction all_roles with
  | nil => intro m a ha; cases ha
  | cons b rest ih =>
      intro m a ha hpid
      unfold collect_matching_roles
      simp only [List.foldl_cons]
      rcases List.mem_cons.mp ha with heq | hrest
      · subst heq
        simp only [beq_iff_eq.mpr hpid, if_true]
        obtain ⟨rids, hmem, hr⟩ := add_role_mem_self m scope a.id
        exact collect_matching_mono scope pid rest _ scope a.id rids hmem hr
      · by_cases hb : (b.principalId == pid) = true
        · simp only [hb, if_true]
          exact ih _ a hrest hpid
        · simp only [hb, if_false]
          exact ih m a hrest hpid

theorem collect_matching_sound (scope pid : String) (all_roles : List RoleAssignment) :
    ∀ (m : List (String × List String)) (sc r : String) (rids : List String),
      (sc, rids) ∈ collect_matching_roles scope pid all_roles m → r ∈ rids →
      (∃ rids0, (sc, rids0) ∈ m ∧ r ∈ rids0)
      ∨ (sc = scope ∧ ∃ a, a ∈ all_roles ∧ a.id = r ∧ a.principalId = pid) := by
  induction all_roles with
  | nil => exact fun m sc r rids hm hr => Or.inl ⟨rids, hm, hr⟩
  | cons b rest ih =>
      intro m sc r rids hm hr
      unfold collect_matching_roles at hm
      simp only [List.foldl_cons] at hm
      by_cases hb : (b.principalId == pid) = true
      · simp only [hb, if_true] at hm
        rcases ih _ sc r rids hm hr with ⟨rids0, h0, hr0⟩ | ⟨hsc, a, hamem, haid, hapid⟩
        · rcases add_role_sound h0 hr0 with hleft | ⟨hsc, hrid⟩
          · exact Or.inl hleft
          · exact Or.inr ⟨hsc, b, List.mem_cons_self _ _, hrid.symm, beq_iff_eq.mp hb⟩
        · exact Or.inr ⟨hsc, a, List.mem_cons_of_mem _ hamem, haid, hapid⟩
      · simp only [hb, if_false] at hm
        rcases ih m sc r rids hm hr with hleft | ⟨hsc, a, hamem, haid, hapid⟩
        · exact Or.inl hleft
        · exact Or.inr ⟨hsc, a, List.mem_cons_of_mem _ hamem, haid, hapid⟩

theorem collect_fold_sound (listRoles : String → List RoleAssignment) :
    ∀ (idents : List StaleIdentity)
      (acc : List String × List (String × List String) × List OrphanEvent)
      (sc r : String) (rids : List String),
      (sc, rids) ∈ (idents.foldl (collect_report_roles_step listRoles) acc).2.1 →
      r ∈ rids →
      (∃ rids0, (sc, rids0) ∈ acc.2.1 ∧ r ∈ rids0)
      ∨ ∃ i, i ∈ idents ∧ sc = i.Scope
          ∧ ∃ a, a ∈ listRoles i.Scope ∧ a.id = r ∧ a.principalId = i.UserName := by
  intro idents
  induction idents with
  | nil => exact fun acc sc r rids hm hr => Or.inl ⟨rids, hm, hr⟩
  | cons i rest ih =>
      intro acc sc r rids hm hr
      simp only [List.foldl_cons] at hm
      rcases ih _ sc r rids hm hr with ⟨rids0, h0, hr0⟩ | ⟨i2, hi2, hsc, a, hamem, haid, hapid⟩
      · have hstep : (collect_report_roles_step listRoles acc i).2.1 =
            collect_matching_roles i.Scope i.UserName (listRoles i.Scope) acc.2.1 := rfl
        rw [hstep] at h0
        rcases collect_matching_sound i.Scope i.UserName (listRoles i.Scope)
            acc.2.1 sc r rids0 h0 hr0 with hleft | ⟨hsc, a, hamem, haid, hapid⟩
        · exact Or.inl hleft
        · exact Or.inr ⟨i, List.mem_cons_self _ _, hsc, a, hamem, haid, hapid⟩
      · exact Or.inr ⟨i2, List.mem_cons_of_mem _ hi2, hsc, a, hamem, haid, hapid⟩

theorem mem_foldl_filter_userName :
    ∀ (l : List String) (acc : List StaleIdentity) (e : StaleIdentity),
      e ∈ l.foldl
          (fun acc q => acc.filter (fun identity => identity.UserName != q)) acc →
      e ∈ acc ∧ ∀ q ∈ l, e.UserName ≠ q := by
  intro l
  induction l with
  | nil => exact fun acc e h => ⟨h, fun q hq => absurd hq (List.not_mem_nil q)⟩
  | cons q rest ih =>
      intro acc e h
      simp only [List.foldl_cons] at h
      obtain ⟨hmem, hrest⟩ := ih _ e h
      obtain ⟨hacc, hne⟩ := List.mem_filter.mp hmem
      refine ⟨hacc, fun q2 hq2 => ?_⟩
      rcases List.mem_cons.mp hq2 with heq | hq2rest
      · subst heq
        exact bne_iff_ne.mp hne
      · exact hrest q2 hq2rest

theorem delete_phase_dry_events (deleteOutcome : String → Except String Unit) :
    ∀ (rtr : List (String × List String))
      (init : List OrphanEvent × List String) (e : OrphanEvent),
      e ∈ (rtr.foldl
          (fun acc p =>
            let scope := p.1
            let roles := p.2
            if true then
              (acc.1 ++ [OrphanEvent.dryRunScope scope roles.length]
                 ++ roles.map OrphanEvent.dryRunRole, acc.2)
            else
              roles.foldl
                (fun acc2 role_id =>
                  let ev := acc2.1 ++ [OrphanEvent.deleteRole role_id]
                  match deleteOutcome role_id with
                  | .ok _ => (ev, acc2.2)
                  | .error msg =>
                      (ev, acc2.2 ++ ["Failed to remove role " ++ role_id ++ ": " ++ msg]))
                (acc.1 ++ [OrphanEvent.removeScopeMsg scope roles.length], acc.2)) init).1 →
      e ∈ init.1 ∨ (∃ sc n, e = OrphanEvent.dryRunScope sc n)
        ∨ (∃ rid, e = OrphanEvent.dryRunRole rid) := by
  intro rtr
  induction rtr with
  | nil => exact fun init e h => Or.inl h
  | cons p rest ih =>
      intro init e h
      simp only [List.foldl_cons, if_true] at h
      rcases ih _ e h with hinit | hdry
      · simp only [List.mem_append] at hinit
        rcases hinit with (h1 | h2) | h3
        · exact Or.inl h1
        · exact Or.inr (Or.inl ⟨p.1, p.2.length, List.mem_singleton.mp h2⟩)
        · obtain ⟨rid, _, heq⟩ := List.mem_map.mp h3
          exact Or.inr (Or.inr ⟨rid, heq.symm⟩)
      · exact Or.inr hdry

theorem delete_phase_dry_run (deleteOutcome : String → Except String Unit)
    (rtr : List (String × List String)) (e : OrphanEvent)
    (h : e ∈ (delete_phase deleteOutcome true rtr).1) :
    (∃ sc n, e = OrphanEvent.dryRunScope sc n) ∨ (∃ rid, e = OrphanEvent.dryRunRole rid) := by
  unfold delete_phase at h
  rcases delete_phase_dry_events deleteOutcome rtr ([], []) e h with hinit | hdry
  · cases hinit
  · exact hdry

/-- C10: in report-driven mode, a principal whose directory lookup fails
with a message not containing "does not exist" is put in the same removal
set as confirmed-real users, so all report entries referencing it are
dropped from the stale-identity list, and no role assignment of that
principal ever becomes a deletion candidate in that run. -/
theorem unexpected_lookup_error_is_conservative (lookup : DirectoryOracle)
    (listRoles : String → List RoleAssignment)
    (deleteOutcome : String → Except String Unit)
    (stale : List StaleIdentity) (p msg : String) (dry_run : Bool)
    (hl : lookup p = .error msg)
    (hmsg : strContains msg "does not exist" = false) :
    should_remove_from_report lookup p = true
    ∧ (p ∈ stale.map (fun i => i.UserName) → p ∈ report_to_remove lookup stale)
    ∧ (∀ e ∈ (check_orphans lookup stale).1, e.UserName ≠ p)
    ∧ (∀ sc rids,
        (sc, rids) ∈
          (remove_orphaned_account_report lookup listRoles deleteOutcome stale dry_run).1 →
        ∀ rid ∈ rids, ∃ a, a ∈ listRoles sc ∧ a.id = rid ∧ a.principalId ≠ p) := by
  have hshould : should_remove_from_report lookup p = true := by
    simp [should_remove_from_report, hl, hmsg]
  have hto : p ∈ stale.map (fun i => i.UserName) → p ∈ report_to_remove lookup stale := by
    intro hm
    exact List.mem_filter.mpr ⟨List.mem_dedup.mpr hm, hshould⟩
  have hdrop : ∀ e ∈ (check_orphans lookup stale).1, e.UserName ≠ p := by
    intro e he hp
    obtain ⟨hacc, hne⟩ := mem_foldl_filter_userName (report_to_remove lookup stale) stale e he
    refine hne p ?_ hp
    exact hto (hp ▸ List.mem_map_of_mem (fun i => i.UserName) hacc)
  refine ⟨hshould, hto, hdrop, ?_⟩
  intro sc rids hmem rid hrid
  unfold remove_orphaned_account_report at hmem
  dsimp only at hmem
  split at hmem
  · cases hmem
  · split at hmem
    all_goals {
      rcases collect_fold_sound listRoles (check_orphans lookup stale).1 ([], [], [])
          sc rid rids hmem hrid with ⟨rids0, h0, _⟩ | ⟨i, hi, hsc, a, hamem, haid, hapid⟩
      · cases h0
      · refine ⟨a, hsc ▸ hamem, haid, ?_⟩
        rw [hapid]
        exact hdrop i hi
    }

/-- Witness for C10: a transient lookup failure ("request timed out") for
principal "p1" drops that report entry and yields no deletion candidate. -/
theorem unexpected_lookup_error_is_conservative_witness :
    should_remove_from_report (fun _ => Except.error "request timed out") "p1" = true
    ∧ (∀ e ∈ (check_orphans (fun _ => Except.error "request timed out")
          [(⟨"Reader", "pn", "/sub/x", "p1", "User", "Permanent"⟩ : StaleIdentity)]).1,
        e.UserName ≠ "p1") := by
  have h := unexpected_lookup_error_is_conservative
      (fun _ => Except.error "request timed out") (fun _ => [])
      (fun _ => Except.ok ()) [⟨"Reader", "pn", "/sub/x", "p1", "User", "Permanent"⟩]
      "p1" "request timed out" true rfl (by decide)
  exact ⟨h.1, h.2.2.1⟩

/-- C8: for the report `{"Stale identities": [{UserName "abc", Scope
"/sub/x"}]}` whose directory lookup fails with "does not exist", the
role-assignment list for scope "/sub/x" is fetched exactly once, the id of
every assignment in it whose principalId is "abc" is added to the removal
set, and with `dry_run = true` no delete command is issued - the trace holds
only the fetch and the dry-run prints. -/
theorem remove_orphaned_account_report_dry_run (lookup : DirectoryOracle)
    (listRoles : String → List RoleAssignment)
    (deleteOutcome : String → Except String Unit)
    (rn pn it att msg : String)
    (result : List (String × List String) × List OrphanEvent × List String)
    (hl : lookup "abc" = .error msg)
    (hmsg : strContains msg "does not exist" = true)
    (hres : result = remove_orphaned_account_report lookup listRoles deleteOutcome
        [⟨rn, pn, "/sub/x", "abc", it, att⟩] true) :
    result.2.1.countP (isListRolesForScopeEvent "/sub/x") = 1
    ∧ (∀ a ∈ listRoles "/sub/x", a.principalId = "abc" →
        ∃ rids, ("/sub/x", rids) ∈ result.1 ∧ a.id ∈ rids)
    ∧ result.2.1.countP isDeleteRoleEvent = 0
    ∧ (∀ e ∈ result.2.1, e = OrphanEvent.listRolesForScope "/sub/x"
        ∨ (∃ sc n, e = OrphanEvent.dryRunScope sc n)
        ∨ (∃ rid, e = OrphanEvent.dryRunRole rid)) := by
  have hshould : should_remove_from_report lookup "abc" = false := by
    simp [should_remove_from_report, hl, hmsg]
  have hstale : (check_orphans lookup
        [(⟨rn, pn, "/sub/x", "abc", it, att⟩ : StaleIdentity)]).1
      = [⟨rn, pn, "/sub/x", "abc", it, att⟩] := by
    unfold check_orphans report_to_remove get_unique_users
    dsimp only
    simp only [List.map_cons, List.map_nil]
    rw [List.dedup_cons_of_not_mem (List.not_mem_nil _), List.dedup_nil]
    simp [hshould]
  have hfold : List.foldl (collect_report_roles_step listRoles) ([], [], [])
        [(⟨rn, pn, "/sub/x", "abc", it, att⟩ : StaleIdentity)] =
      (["/sub/x"],
       collect_matching_roles "/sub/x" "abc" (listRoles "/sub/x") [],
       [OrphanEvent.listRolesForScope "/sub/x"]) := by
    simp [collect_report_roles_step]
  have hres2 : result =
      (if (collect_matching_roles "/sub/x" "abc" (listRoles "/sub/x") []).isEmpty then
         (collect_matching_roles "/sub/x" "abc" (listRoles "/sub/x") [],
          [OrphanEvent.listRolesForScope "/sub/x"], ([] : List String))
       else
         (collect_matching_roles "/sub/x" "abc" (listRoles "/sub/x") [],
          [OrphanEvent.listRolesForScope "/sub/x"]
            ++ (delete_phase deleteOutcome true
                 (collect_matching_roles "/sub/x" "abc" (listRoles "/sub/x") [])).1,
          (delete_phase deleteOutcome true
            (collect_matching_roles "/sub/x" "abc" (listRoles "/sub/x") [])).2)) := by
    rw [hres]
    unfold remove_orphaned_account_report
    rw [hstale]
    dsimp only
    rw [hfold]
    simp only [List.isEmpty_cons, Bool.false_eq_true, if_false]
  have hcomplete : ∀ a ∈ listRoles "/sub/x", a.principalId = "abc" →
      ∃ rids, ("/sub/x", rids) ∈
          collect_matching_roles "/sub/x" "abc" (listRoles "/sub/x") [] ∧ a.id ∈ rids :=
    fun a ha hpid => collect_matching_complete "/sub/x" "abc" (listRoles "/sub/x") [] a ha hpid
  by_cases hempty : (collect_matching_roles "/sub/x" "abc" (listRoles "/sub/x") []).isEmpty
  · rw [if_pos hempty] at hres2
    subst hres2
    refine ⟨by simp [isListRolesForScopeEvent], hcomplete, by simp [isDeleteRoleEvent], ?_⟩
    intro e he
    exact Or.inl (List.mem_singleton.mp he)
  · rw [if_neg hempty] at hres2
    subst hres2
    refine ⟨?_, hcomplete, ?_, ?_⟩
    · rw [List.countP_append]
      have hz : (delete_phase deleteOutcome true
          (collect_matching_roles "/sub/x" "abc" (listRoles "/sub/x") [])).1.countP
            (isListRolesForScopeEvent "/sub/x") = 0 := by
        rw [List.countP_eq_zero]
        intro e he
        rcases delete_phase_dry_run deleteOutcome _ e he with ⟨sc, n, rfl⟩ | ⟨rid, rfl⟩ <;>
          simp [isListRolesForScopeEvent]
      rw [hz]
      decide
    · rw [List.countP_append]
      have hz : (delete_phase deleteOutcome true
          (collect_matching_roles "/sub/x" "abc" (listRoles "/sub/x") [])).1.countP
            isDeleteRoleEvent = 0 := by
        rw [List.countP_eq_zero]
        intro e he
        rcases delete_phase_dry_run deleteOutcome _ e he with ⟨sc, n, rfl⟩ | ⟨rid, rfl⟩ <;>
          simp [isDeleteRoleEvent]
      rw [hz]
      decide
    · intro e he
      rcases List.mem_append.mp he with h1 | h2
      · exact Or.inl (List.mem_singleton.mp h1)
      · exact Or.inr (delete_phase_dry_run deleteOutcome _ e h2)

/-- Witness for C8 with a concrete directory, role listing and report:
assignment "rid1" of principal "abc" becomes a removal candidate, the scope
is fetched once, and no delete command is issued. -/
theorem remove_orphaned_account_report_dry_run_witness :
    (remove_orphaned_account_report (fun _ => Except.error "abc does not exist")
        (fun _ => [⟨"rid1", "abc", "abc", "User", "/sub/x"⟩,
                   ⟨"rid2", "other", "o", "User", "/sub/x"⟩])
        (fun _ => Except.ok ())
        [⟨"Unknown", "identity not found", "/sub/x", "abc", "User", "Permanent"⟩]
        true).2.1.countP (isListRolesForScopeEvent "/sub/x") = 1
    ∧ (∃ rids, ("/sub/x", rids) ∈
        (remove_orphaned_account_report (fun _ => Except.error "abc does not exist")
          (fun _ => [⟨"rid1", "abc", "abc", "User", "/sub/x"⟩,
                     ⟨"rid2", "other", "o", "User", "/sub/x"⟩])
          (fun _ => Except.ok ())
          [⟨"Unknown", "identity not found", "/sub/x", "abc", "User", "Permanent"⟩]
          true).1 ∧ "rid1" ∈ rids)
    ∧ (remove_orphaned_account_report (fun _ => Except.error "abc does not exist")
        (fun _ => [⟨"rid1", "abc", "abc", "User", "/sub/x"⟩,
                   ⟨"rid2", "other", "o", "User", "/sub/x"⟩])
        (fun _ => Except.ok ())
        [⟨"Unknown", "identity not found", "/sub/x", "abc", "User", "Permanent"⟩]
        true).2.1.countP isDeleteRoleEvent = 0 := by
  have h := remove_orphaned_account_report_dry_run
      (fun _ => Except.error "abc does not exist")
      (fun _ => [⟨"rid1", "abc", "abc", "User", "/sub/x"⟩,
                 ⟨"rid2", "other", "o", "User", "/sub/x"⟩])
      (fun _ => Except.ok ())
      "Unknown" "identity not found" "User" "Permanent" "abc does not exist" _
      rfl (by decide) rfl
  refine ⟨h.1, ?_, h.2.2.1⟩
  exact h.2.1 ⟨"rid1", "abc", "abc", "User", "/sub/x"⟩ (by decide) rfl

theorem isAdUserLookupEvent_collect (p q rid sc : String) :
    isAdUserLookupEvent p (OrphanEvent.collectOrphan q rid sc) = false := by
  unfold isAdUserLookupEvent
  exact beq_eq_false_iff_ne.mpr (fun h => OrphanEvent.noConfusion h)

theorem find_step_invariant (lookup : DirectoryOracle) (p : String)
    (acc : List String × List (String × List String) × List OrphanEvent)
    (item : RoleAssignment)
    (h1 : acc.2.2.countP (isAdUserLookupEvent p) ≤ 1)
    (h2 : acc.2.2.countP (isCollectOrphanEvent p) ≤ acc.2.2.countP (isAdUserLookupEvent p))
    (h3 : p ∉ acc.1 → acc.2.2.countP (isAdUserLookupEvent p) = 0) :
    (find_orphaned_roles_step lookup acc item).2.2.countP (isAdUserLookupEvent p) ≤ 1
    ∧ (find_orphaned_roles_step lookup acc item).2.2.countP (isCollectOrphanEvent p)
        ≤ (find_orphaned_roles_step lookup acc item).2.2.countP (isAdUserLookupEvent p)
    ∧ (p ∉ (find_orphaned_roles_step lookup acc item).1 →
        (find_orphaned_roles_step lookup acc item).2.2.countP (isAdUserLookupEvent p) = 0) := by
  unfold find_orphaned_roles_step
  dsimp only
  split
  · exact ⟨h1, h2, h3⟩
  split
  · exact ⟨h1, h2, h3⟩
  next hkg =>
  have hpin : p ∉ acc.1 → False → True := fun _ _ => trivial
  by_cases hp : item.principalId = p
  · have hnotin : p ∉ acc.1 := by
      intro hmem
      exact hkg (hp ▸ List.elem_eq_true_of_mem hmem)
    have hz : acc.2.2.countP (isAdUserLookupEvent p) = 0 := h3 hnotin
    have hzc : acc.2.2.countP (isCollectOrphanEvent p) = 0 :=
      Nat.le_zero.mp (hz ▸ h2)
    have hmemkg : p ∈ acc.1 ++ [item.principalId] :=
      List.mem_append_right _ (List.mem_singleton.mpr hp.symm)
    split
    · refine ⟨?_, ?_, fun habs => absurd hmemkg habs⟩ <;>
        simp [List.countP_append, hz, hzc, isAdUserLookupEvent, isCollectOrphanEvent, hp]
    split
    · refine ⟨?_, ?_, fun habs => absurd hmemkg habs⟩ <;>
        simp [List.countP_append, hz, hzc, isAdUserLookupEvent, isCollectOrphanEvent, hp]
    · refine ⟨?_, ?_, fun habs => absurd hmemkg habs⟩ <;>
        simp [List.countP_append, hz, hzc, isAdUserLookupEvent, isCollectOrphanEvent, hp]
  · have hLnew : isAdUserLookupEvent p (OrphanEvent.adUserLookup item.principalId) = false := by
      simp [isAdUserLookupEvent, hp]
    have hnotin2 : p ∉ acc.1 ++ [item.principalId] → p ∉ acc.1 :=
      fun h hm => h (List.mem_append_left _ hm)
    split
    · refine ⟨?_, ?_, fun habs => ?_⟩
      · simp [List.countP_append, hLnew, h1]
      · simp [List.countP_append, hLnew, isCollectOrphanEvent, h2]
      · simp [List.countP_append, hLnew, h3 (hnotin2 habs)]
    split
    · refine ⟨?_, ?_, fun habs => ?_⟩
      · simp [List.countP_append, hLnew, isAdUserLookupEvent_collect, h1]
      · simp [List.countP_append, hLnew, isAdUserLookupEvent_collect,
          isCollectOrphanEvent, hp, h2]
      · simp [List.countP_append, hLnew, isAdUserLookupEvent_collect, h3 (hnotin2 habs)]
    · refine ⟨?_, ?_, fun habs => ?_⟩
      · simp [List.countP_append, hLnew, h1]
      · simp [List.countP_append, hLnew, isCollectOrphanEvent, h2]
      · simp [List.countP_append, hLnew, h3 (hnotin2 habs)]

theorem find_fold_invariant (lookup : DirectoryOracle) (p : String) :
    ∀ (assignments : List RoleAssignment)
      (acc : List String × List (String × List String) × List OrphanEvent),
      acc.2.2.countP (isAdUserLookupEvent p) ≤ 1 →
      acc.2.2.countP (isCollectOrphanEvent p) ≤ acc.2.2.countP (isAdUserLookupEvent p) →
      (p ∉ acc.1 → acc.2.2.countP (isAdUserLookupEvent p) = 0) →
      (assignments.foldl (find_orphaned_roles_step lookup) acc).2.2.countP
          (isAdUserLookupEvent p) ≤ 1
      ∧ (assignments.foldl (find_orphaned_roles_step lookup) acc).2.2.countP
          (isCollectOrphanEvent p)
        ≤ (assignments.foldl (find_orphaned_roles_step lookup) acc).2.2.countP
            (isAdUserLookupEvent p) := by
  intro assignments
  induction assignments with
  | nil => exact fun acc h1 h2 _ => ⟨h1, h2⟩
  | cons item rest ih =>
      intro acc h1 h2 h3
      simp only [List.foldl_cons]
      obtain ⟨g1, g2, g3⟩ := find_step_invariant lookup p acc item h1 h2 h3
      exact ih (find_orphaned_roles_step lookup acc item) g1 g2 g3

/-- C9: in the discovery-driven scan, each principal id is looked up at most
once, and since an assignment whose principal id was already seen is skipped
entirely, at most one role-assignment id is ever collected into the orphan
set per distinct orphaned principal id, no matter how many role assignments
that principal holds. -/
theorem find_orphaned_roles_once_per_principal (lookup : DirectoryOracle)
    (assignments : List RoleAssignment) (p : String) :
    (find_orphaned_roles lookup assignments).2.countP (isAdUserLookupEvent p) ≤ 1
    ∧ (find_orphaned_roles lookup assignments).2.countP (isCollectOrphanEvent p) ≤ 1 := by
  have h := find_fold_invariant lookup p assignments ([], [], [])
      (by simp) (by simp) (fun _ => by simp)
  exact ⟨h.1, le_trans h.2 h.1⟩

theorem poll_loop_sleep_interval (fetch : Nat → AzureVmState) (ts iv : Nat) (title : String) :
    ∀ (fuel : Nat) (vm : AzureVmState) (elapsed k s : Nat),
      VmEvent.sleepFor s ∈ (poll_loop fetch ts iv title vm elapsed k fuel).1 → s = iv := by
  intro fuel
  induction fuel with
  | zero => intro vm elapsed k s h; cases h
  | succ f ih =>
      intro vm elapsed k s h
      unfold poll_loop at h
      split at h
      · cases h
      · split at h
        · rcases List.mem_cons.mp h with heq | h2
          · exact (VmEvent.sleepFor.injEq s iv).mp heq
          · rcases List.mem_cons.mp h2 with heq2 | h3
            · cases heq2
            · exact ih (fetch k) (elapsed + iv) (k + 1) s h3
        · rcases List.mem_singleton.mp h with heq
          cases heq

theorem poll_loop_sleep_count_le (fetch : Nat → AzureVmState) (title : String) :
    ∀ (fuel : Nat) (vm : AzureVmState) (elapsed k : Nat),
      (poll_loop fetch 600 15 title vm elapsed k fuel).1.countP isSleepEvent * 15
        ≤ (600 - elapsed) + 14 := by
  intro fuel
  induction fuel with
  | zero => intro vm elapsed k; simp [poll_loop]
  | succ f ih =>
      intro vm elapsed k
      unfold poll_loop
      split
      · simp
      · split
        · next hin =>
            have hiv := ih (fetch k) (elapsed + 15) (k + 1)
            have hlt2 : elapsed < 600 := of_decide_eq_true hin
            simp only [List.countP_cons, List.countP_nil]
            simp [isSleepEvent]
            omega
        · simp [isSleepEvent]

theorem poll_loop_timeout_elapsed (fetch : Nat → AzureVmState) (title : String) :
    ∀ (fuel : Nat) (vm : AzureVmState) (elapsed k : Nat) (t : String),
      VmEvent.timeoutExpired t ∈ (poll_loop fetch 600 15 title vm elapsed k fuel).1 →
      600 ≤ elapsed + 15 * (poll_loop fetch 600 15 title vm elapsed k fuel).1.countP
          isSleepEvent := by
  intro fuel
  induction fuel with
  | zero => intro vm elapsed k t h; cases h
  | succ f ih =>
      intro vm elapsed k t h
      unfold poll_loop at h ⊢
      by_cases hrun : vm.is_running = true
      · rw [if_pos hrun] at h
        cases h
      · rw [if_neg hrun] at h ⊢
        by_cases hstep : timeout_step 600 elapsed = true
        · rw [if_pos hstep] at h ⊢
          dsimp only at h ⊢
          rcases List.mem_cons.mp h with heq | h2
          · cases heq
          rcases List.mem_cons.mp h2 with heq2 | h3
          · cases heq2
          have hiv := ih (fetch k) (elapsed + 15) (k + 1) t h3
          simp only [List.countP_cons]
          simp [isSleepEvent]
          omega
        · rw [if_neg hstep] at h ⊢
          have hge : ¬ elapsed < 600 := fun hc => hstep (by simp [timeout_step, hc])
          simp only [List.countP_cons, List.countP_nil]
          simp [isSleepEvent]
          omega

theorem tail_events_no_sleep (v : AzureVmState) (extensions : Extensions)
    (subscription_id resource_group uami : String) :
    (VmEvent.azCmd (list_extensions_call v resource_group)
      :: (extension_install_calls v extensions subscription_id resource_group uami).map
           VmEvent.azCmd).countP isSleepEvent = 0
    ∧ ∀ e ∈ VmEvent.azCmd (list_extensions_call v resource_group)
        :: (extension_install_calls v extensions subscription_id resource_group uami).map
             VmEvent.azCmd,
      (∀ s, e ≠ VmEvent.sleepFor s) ∧ (∀ t, e ≠ VmEvent.timeoutExpired t) := by
  constructor
  · rw [List.countP_cons, List.countP_map]
    have hc : (isSleepEvent ∘ VmEvent.azCmd) = fun _ => false := by
      funext c
      rfl
    rw [hc]
    simp [isSleepEvent]
  · intro e he
    rcases List.mem_cons.mp he with heq | hm
    · subst heq
      exact ⟨fun s h => VmEvent.noConfusion h, fun t h => VmEvent.noConfusion h⟩
    · obtain ⟨c, _, heq⟩ := List.mem_map.mp hm
      rw [← heq]
      exact ⟨fun s h => VmEvent.noConfusion h, fun t h => VmEvent.noConfusion h⟩

/-- C4: in `process_vm`, when the VM is not running a start is requested
first, the polling loop sleeps a fixed 15 seconds between iterations and
gives up after the 600-second timeout (a timeout trace means exactly 40
sleep intervals were spent, and never more than 40 happen); reaching the
timeout is non-fatal: the trace always ends with the extension listing and
the four extension checks, whether or not the VM ever ran. -/
theorem process_vm_polling_behavior (az : AzureVms) (vm : AzureVmState) (now : Nat)
    (outcome : StartOutcome) (fetch : Nat → AzureVmState) (extensions : Extensions)
    (subscription_id resource_group uami : String) :
    (vm.is_running = false →
      ∃ tl, process_vm_model az vm now outcome fetch extensions subscription_id
          resource_group uami = VmEvent.tryStart vm.name :: tl)
    ∧ (∀ s, VmEvent.sleepFor s ∈ process_vm_model az vm now outcome fetch extensions
        subscription_id resource_group uami → s = 15)
    ∧ (∃ pre v, process_vm_model az vm now outcome fetch extensions subscription_id
          resource_group uami =
        pre ++ VmEvent.azCmd (list_extensions_call v resource_group)
          :: (extension_install_calls v extensions subscription_id resource_group uami).map
               VmEvent.azCmd)
    ∧ (∀ t, VmEvent.timeoutExpired t ∈ process_vm_model az vm now outcome fetch extensions
          subscription_id resource_group uami →
        (process_vm_model az vm now outcome fetch extensions subscription_id
            resource_group uami).countP isSleepEvent = 40)
    ∧ (process_vm_model az vm now outcome fetch extensions subscription_id
        resource_group uami).countP isSleepEvent ≤ 40 := by
  by_cases hrun : vm.is_running = true
  · have hT : process_vm_model az vm now outcome fetch extensions subscription_id
        resource_group uami =
        VmEvent.azCmd (list_extensions_call vm resource_group)
          :: (extension_install_calls vm extensions subscription_id resource_group uami).map
               VmEvent.azCmd := by
      simp [process_vm_model, hrun]
    obtain ⟨hcnt, hnone⟩ :=
      tail_events_no_sleep vm extensions subscription_id resource_group uami
    refine ⟨fun hf => absurd hrun (by simp [hf]), ?_, ⟨[], vm, by rw [hT]; rfl⟩, ?_, ?_⟩
    · intro s hs
      rw [hT] at hs
      exact absurd rfl ((hnone _ hs).1 s)
    · intro t ht
      rw [hT] at ht
      exact absurd rfl ((hnone _ ht).2 t)
    · rw [hT, hcnt]
      exact Nat.zero_le 40
  · have hrunf : vm.is_running = false := by
      cases hv : vm.is_running
      · rfl
      · exact absurd hv hrun
    rcases hE : poll_loop fetch 600 15 ("starting vm " ++ vm.name)
        (try_start_vm az vm now outcome).vm 0 0 601 with ⟨tr, vfin⟩
    have hT : process_vm_model az vm now outcome fetch extensions subscription_id
        resource_group uami =
        VmEvent.tryStart vm.name ::
          (tr ++ VmEvent.azCmd (list_extensions_call vfin resource_group)
            :: (extension_install_calls vfin extensions subscription_id resource_group
                 uami).map VmEvent.azCmd) := by
      simp [process_vm_model, hrunf, hE]
    obtain ⟨hcnt0, hnone⟩ :=
      tail_events_no_sleep vfin extensions subscription_id resource_group uami
    have hcntT : (process_vm_model az vm now outcome fetch extensions subscription_id
        resource_group uami).countP isSleepEvent = tr.countP isSleepEvent := by
      rw [hT, List.countP_cons, List.countP_append, hcnt0]
      simp [isSleepEvent]
    have hbound : tr.countP isSleepEvent * 15 ≤ 614 := by
      have h := poll_loop_sleep_count_le fetch ("starting vm " ++ vm.name) 601
          (try_start_vm az vm now outcome).vm 0 0
      rw [hE] at h
      simpa using h
    refine ⟨fun _ => ⟨_, hT⟩, ?_, ⟨VmEvent.tryStart vm.name :: tr, vfin,
        by rw [hT, List.cons_append]⟩, ?_, ?_⟩
    · intro s hs
      rw [hT] at hs
      rcases List.mem_cons.mp hs with heq | hs2
      · cases heq
      rcases List.mem_append.mp hs2 with hloop | htl
      · refine poll_loop_sleep_interval fetch 600 15 ("starting vm " ++ vm.name) 601
          (try_start_vm az vm now outcome).vm 0 0 s ?_
        rw [hE]
        exact hloop
      · exact absurd rfl ((hnone _ htl).1 s)
    · intro t ht
      rw [hT] at ht
      rcases List.mem_cons.mp ht with heq | ht2
      · cases heq
      rcases List.mem_append.mp ht2 with hloop | htl
      · have hge := poll_loop_timeout_elapsed fetch ("starting vm " ++ vm.name) 601
            (try_start_vm az vm now outcome).vm 0 0 t (by rw [hE]; exact hloop)
        rw [hE] at hge
        simp only at hge
        rw [hcntT]
        omega
      · exact absurd rfl ((hnone _ htl).2 t)
    · rw [hcntT]
      omega

/-- Witness for C4: a deallocated VM whose re-fetches never report running
makes the loop time out after exactly 40 fifteen-second sleeps. -/
theorem process_vm_polling_behavior_witness :
    (process_vm_model ⟨"s", "g", 600, 0, false⟩
        ⟨"vm1", "PowerState/deallocated", true, false, "", "", false, false, 0, 0⟩
        0 .success
        (fun _ => ⟨"vm1", "PowerState/deallocated", true, false, "", "", false, false, 0, 0⟩)
        [] "s" "g" "").countP isSleepEvent = 40 := by
  have h := process_vm_polling_behavior ⟨"s", "g", 600, 0, false⟩
      ⟨"vm1", "PowerState/deallocated", true, false, "", "", false, false, 0, 0⟩
      0 .success
      (fun _ => ⟨"vm1", "PowerState/deallocated", true, false, "", "", false, false, 0, 0⟩)
      [] "s" "g" ""
  exact h.2.2.2.1 "starting vm vm1" (by decide)

theorem prefix_extend2 {α : Type} (a b t : List α) : a ++ b <+: a ++ (b ++ t) := by
  rw [← List.append_assoc]
  exact List.prefix_append _ _

theorem prefix_extend3 {α : Type} (a b c t : List α) :
    a ++ (b ++ c) <+: a ++ (b ++ (c ++ t)) := by
  have h : a ++ (b ++ (c ++ t)) = (a ++ (b ++ c)) ++ t := by simp [List.append_assoc]
  rw [h]
  exact List.prefix_append _ _

theorem prefix_extend5 {α : Type} (a b c d e t : List α) :
    a ++ (b ++ (c ++ (d ++ e))) <+: a ++ (b ++ (c ++ (d ++ (e ++ t)))) := by
  have h : a ++ (b ++ (c ++ (d ++ (e ++ t)))) = (a ++ (b ++ (c ++ (d ++ e)))) ++ t := by
    simp [List.append_assoc]
  rw [h]
  exact List.prefix_append _ _

theorem not_prefix_target2 {α : Type} (p₀ p₁ q₀ q₁ r : List α)
    (h1 : ¬ p₀ <+: q₀ ++ q₁) (h2 : ¬ q₀ ++ q₁ <+: p₀) :
    ¬ p₀ ++ p₁ <+: q₀ ++ (q₁ ++ r) := by
  rw [← List.append_assoc]
  exact not_isPrefix_head p₁ r h1 h2

theorem not_prefix_source2 {α : Type} (p₀ p₁ p₂ q₀ q₁ : List α)
    (h1 : ¬ p₀ ++ p₁ <+: q₀) (h2 : ¬ q₀ <+: p₀ ++ p₁) :
    ¬ p₀ ++ (p₁ ++ p₂) <+: q₀ ++ q₁ := by
  rw [← List.append_assoc]
  exact not_isPrefix_head p₂ q₁ h1 h2

theorem clsf_mon_mon (vm : AzureVmState) (subscription resource_group uami : String) :
    is_monitor_agent_install vm (install_monitor_agent_call vm subscription
      resource_group uami) = true := by
  unfold is_monitor_agent_install install_monitor_agent_call
  dsimp only
  split
  · simp only [strStartsWith, decide_eq_true_eq, String.data_append, List.append_assoc]
    exact prefix_extend3 _ _ _ _
  · simp only [strStartsWith, decide_eq_true_eq, String.data_append, List.append_assoc]
    exact prefix_extend3 _ _ _ _

theorem clsf_cfg_cfg (vm : AzureVmState) (resource_group : String) :
    is_guest_configuration_install vm
      (install_guest_configuration_extension_call vm resource_group) = true := by
  unfold is_guest_configuration_install install_guest_configuration_extension_call
  dsimp only
  simp only [strStartsWith, decide_eq_true_eq, String.data_append, List.append_assoc]
  exact prefix_extend5 _ _ _ _ _ _

theorem clsf_aad_aad (vm : AzureVmState) (resource_group : String) :
    is_aad_ssh_install vm (install_aad_ssh_login_call vm resource_group) = true := by
  unfold is_aad_ssh_install install_aad_ssh_login_call
  dsimp only
  simp only [strStartsWith, decide_eq_true_eq, String.data_append, List.append_assoc]
  exact prefix_extend2 _ _ _

theorem clsf_att_att (vm : AzureVmState) (resource_group : String) :
    is_guest_attestation_install vm
      (install_guest_attestation_call vm resource_group) = true := by
  unfold is_guest_attestation_install install_guest_attestation_call
  dsimp only
  simp only [strStartsWith, decide_eq_true_eq, String.data_append, List.append_assoc]
  exact prefix_extend3 _ _ _ _

theorem clsf_mon_cfg (vm : AzureVmState) (resource_group : String) :
    is_monitor_agent_install vm
      (install_guest_configuration_extension_call vm resource_group) = false := by
  unfold is_monitor_agent_install install_guest_configuration_extension_call
  dsimp only
  simp only [strStartsWith, decide_eq_false_iff_not, String.data_append, List.append_assoc]
  exact not_isPrefix_head _ _ (by decide) (by decide)

theorem clsf_mon_aad (vm : AzureVmState) (resource_group : String) :
    is_monitor_agent_install vm (install_aad_ssh_login_call vm resource_group) = false := by
  unfold is_monitor_agent_install install_aad_ssh_login_call
  dsimp only
  simp only [strStartsWith, decide_eq_false_iff_not, String.data_append, List.append_assoc]
  exact not_isPrefix_head _ _ (by decide) (by decide)

theorem clsf_mon_att (vm : AzureVmState) (resource_group : String) :
    is_monitor_agent_install vm (install_guest_attestation_call vm resource_group) = false := by
  unfold is_monitor_agent_install install_guest_attestation_call
  dsimp only
  simp only [strStartsWith, decide_eq_false_iff_not, String.data_append, List.append_assoc]
  exact not_isPrefix_head _ _ (by decide) (by decide)

theorem clsf_cfg_mon (vm : AzureVmState) (subscription resource_group uami : String) :
    is_guest_configuration_install vm
      (install_monitor_agent_call vm subscription resource_group uami) = false := by
  unfold is_guest_configuration_install install_monitor_agent_call
  dsimp only
  split
  · simp only [strStartsWith, decide_eq_false_iff_not, String.data_append, List.append_assoc]
    exact not_isPrefix_head _ _ (by decide) (by decide)
  · simp only [strStartsWith, decide_eq_false_iff_not, String.data_append, List.append_assoc]
    exact not_isPrefix_head _ _ (by decide) (by decide)

theorem clsf_cfg_aad (vm : AzureVmState) (resource_group : String) :
    is_guest_configuration_install vm
      (install_aad_ssh_login_call vm resource_group) = false := by
  unfold is_guest_configuration_install install_aad_ssh_login_call
  dsimp only
  simp only [strStartsWith, decide_eq_false_iff_not, String.data_append, List.append_assoc]
  exact not_isPrefix_head _ _ (by decide) (by decide)

theorem clsf_cfg_att (vm : AzureVmState) (resource_group : String) :
    is_guest_configuration_install vm
      (install_guest_attestation_call vm resource_group) = false := by
  unfold is_guest_configuration_install install_guest_attestation_call
  dsimp only
  cases hw : vm.is_windows <;>
    simp only [get_guest_attestation_extension_publisher, hw, Bool.false_eq_true,
      if_false, if_true, strStartsWith, decide_eq_false_iff_not, String.data_append,
      List.append_assoc] <;>
    exact not_prefix_target2 _ _ _ _ _ (by decide) (by decide)

theorem clsf_aad_mon (vm : AzureVmState) (subscription resource_group uami : String) :
    is_aad_ssh_install vm
      (install_monitor_agent_call vm subscription resource_group uami) = false := by
  unfold is_aad_ssh_install install_monitor_agent_call
  dsimp only
  split
  · simp only [strStartsWith, decide_eq_false_iff_not, String.data_append, List.append_assoc]
    exact not_isPrefix_head _ _ (by decide) (by decide)
  · simp only [strStartsWith, decide_eq_false_iff_not, String.data_append, List.append_assoc]
    exact not_isPrefix_head _ _ (by decide) (by decide)

theorem clsf_aad_cfg (vm : AzureVmState) (resource_group : String) :
    is_aad_ssh_install vm
      (install_guest_configuration_extension_call vm resource_group) = false := by
  unfold is_aad_ssh_install install_guest_configuration_extension_call
  dsimp only
  simp only [strStartsWith, decide_eq_false_iff_not, String.data_append, List.append_assoc]
  exact not_isPrefix_head _ _ (by decide) (by decide)

theorem clsf_aad_att (vm : AzureVmState) (resource_group : String) :
    is_aad_ssh_install vm (install_guest_attestation_call vm resource_group) = false := by
  unfold is_aad_ssh_install install_guest_attestation_call
  dsimp only
  cases hw : vm.is_windows <;>
    simp only [get_guest_attestation_extension_publisher, hw, Bool.false_eq_true,
      if_false, if_true, strStartsWith, decide_eq_false_iff_not, String.data_append,
      List.append_assoc] <;>
    exact not_prefix_target2 _ _ _ _ _ (by decide) (by decide)

theorem clsf_att_mon (vm : AzureVmState) (subscription resource_group uami : String) :
    is_guest_attestation_install vm
      (install_monitor_agent_call vm subscription resource_group uami) = false := by
  unfold is_guest_attestation_install install_monitor_agent_call
  dsimp only
  split
  · simp only [strStartsWith, decide_eq_false_iff_not, String.data_append, List.append_assoc]
    exact not_isPrefix_head _ _ (by decide) (by decide)
  · simp only [strStartsWith, decide_eq_false_iff_not, String.data_append, List.append_assoc]
    exact not_isPrefix_head _ _ (by decide) (by decide)

theorem clsf_att_cfg (vm : AzureVmState) (resource_group : String) :
    is_guest_attestation_install vm
      (install_guest_configuration_extension_call vm resource_group) = false := by
  unfold is_guest_attestation_install install_guest_configuration_extension_call
  dsimp only
  cases hw : vm.is_windows <;>
    simp only [get_guest_attestation_extension_publisher, hw, Bool.false_eq_true,
      if_false, if_true, strStartsWith, decide_eq_false_iff_not, String.data_append,
      List.append_assoc] <;>
    exact not_prefix_source2 _ _ _ _ _ (by decide) (by decide)

theorem clsf_att_aad (vm : AzureVmState) (resource_group : String) :
    is_guest_attestation_install vm
      (install_aad_ssh_login_call vm resource_group) = false := by
  unfold is_guest_attestation_install install_aad_ssh_login_call
  dsimp only
  cases hw : vm.is_windows <;>
    simp only [get_guest_attestation_extension_publisher, hw, Bool.false_eq_true,
      if_false, if_true, strStartsWith, decide_eq_false_iff_not, String.data_append,
      List.append_assoc] <;>
    exact not_prefix_source2 _ _ _ _ _ (by decide) (by decide)

/-- C3: each `check_*` function returns true exactly when the extension's
OS-specific instance name is a key of the supplied listing; the name and
publisher selectors produce exactly the documented OS-specific identifiers;
when a check fails the reconciler issues exactly one corresponding install
command opening with those identifiers, and when it succeeds none; a
listing containing all four extensions yields zero install commands. -/
theorem extension_reconciler_checks (vm : AzureVmState) (extensions : Extensions)
    (subscription_id resource_group uami : String)
    (hos : vm.is_windows = !vm.is_linux) :
    (check_monitor_agent vm extensions = true ↔
      (extensions.lookup (get_monitor_agent_name vm)).isSome = true)
    ∧ (check_guest_configuration_extension vm extensions = true ↔
        (extensions.lookup (get_guest_configuration_extension_name vm).2).isSome = true)
    ∧ (check_aad_ssh_login vm extensions = true ↔
        (extensions.lookup (get_aad_ssh_extension_name vm)).isSome = true)
    ∧ (check_guest_attestation vm extensions = true ↔
        (extensions.lookup "GuestAttestation").isSome = true)
    ∧ (vm.is_linux = true →
        get_monitor_agent_name vm = "AzureMonitorLinuxAgent"
        ∧ get_guest_configuration_extension_name vm
            = ("ConfigurationForLinux", "AzurePolicyforLinux")
        ∧ get_aad_ssh_extension_name vm = "AADSSHLoginForLinux"
        ∧ get_guest_attestation_extension_publisher vm
            = "Microsoft.Azure.Security.LinuxAttestation")
    ∧ (vm.is_linux = false →
        get_monitor_agent_name vm = "AzureMonitorWindowsAgent"
        ∧ get_guest_configuration_extension_name vm
            = ("ConfigurationforWindows", "AzurePolicyforWindows")
        ∧ get_aad_ssh_extension_name vm = "AADLoginForWindows"
        ∧ get_guest_attestation_extension_publisher vm
            = "Microsoft.Azure.Security.WindowsAttestation")
    ∧ (extension_install_calls vm extensions subscription_id resource_group uami).countP
        (is_monitor_agent_install vm)
        = (if check_monitor_agent vm extensions then 0 else 1)
    ∧ (extension_install_calls vm extensions subscription_id resource_group uami).countP
        (is_guest_configuration_install vm)
        = (if check_guest_configuration_extension vm extensions then 0 else 1)
    ∧ (extension_install_calls vm extensions subscription_id resource_group uami).countP
        (is_aad_ssh_install vm)
        = (if check_aad_ssh_login vm extensions then 0 else 1)
    ∧ (extension_install_calls vm extensions subscription_id resource_group uami).countP
        (is_guest_attestation_install vm)
        = (if check_guest_attestation vm extensions then 0 else 1)
    ∧ (check_monitor_agent vm extensions = true →
        check_guest_configuration_extension vm extensions = true →
        check_aad_ssh_login vm extensions = true →
        check_guest_attestation vm extensions = true →
        extension_install_calls vm extensions subscription_id resource_group uami = []) := by
  refine ⟨Iff.rfl, Iff.rfl, Iff.rfl, Iff.rfl, ?_, ?_, ?_, ?_, ?_, ?_, ?_⟩
  · intro hl
    simp [get_monitor_agent_name, get_guest_configuration_extension_name,
      get_aad_ssh_extension_name, get_guest_attestation_extension_publisher, hl, hos]
  · intro hl
    simp [get_monitor_agent_name, get_guest_configuration_extension_name,
      get_aad_ssh_extension_name, get_guest_attestation_extension_publisher, hl, hos]
  · cases h1 : check_monitor_agent vm extensions <;>
      cases h2 : check_guest_configuration_extension vm extensions <;>
      cases h3 : check_aad_ssh_login vm extensions <;>
      cases h4 : check_guest_attestation vm extensions <;>
      simp [extension_install_calls, h1, h2, h3, h4,
        clsf_mon_mon, clsf_mon_cfg, clsf_mon_aad, clsf_mon_att]
  · cases h1 : check_monitor_agent vm extensions <;>
      cases h2 : check_guest_configuration_extension vm extensions <;>
      cases h3 : check_aad_ssh_login vm extensions <;>
      cases h4 : check_guest_attestation vm extensions <;>
      simp [extension_install_calls, h1, h2, h3, h4,
        clsf_cfg_mon, clsf_cfg_cfg, clsf_cfg_aad, clsf_cfg_att]
  · cases h1 : check_monitor_agent vm extensions <;>
      cases h2 : check_guest_configuration_extension vm extensions <;>
      cases h3 : check_aad_ssh_login vm extensions <;>
      cases h4 : check_guest_attestation vm extensions <;>
      simp [extension_install_calls, h1, h2, h3, h4,
        clsf_aad_mon, clsf_aad_cfg, clsf_aad_aad, clsf_aad_att]
  · cases h1 : check_monitor_agent vm extensions <;>
      cases h2 : check_guest_configuration_extension vm extensions <;>
      cases h3 : check_aad_ssh_login vm extensions <;>
      cases h4 : check_guest_attestation vm extensions <;>
      simp [extension_install_calls, h1, h2, h3, h4,
        clsf_att_mon, clsf_att_cfg, clsf_att_aad, clsf_att_att]
  · intro hc1 hc2 hc3 hc4
    simp [extension_install_calls, hc1, hc2, hc3, hc4]

/-- Witness for C3: on a Linux VM, a listing holding all four extensions
yields zero install commands, and an empty listing yields exactly one
install command per extension. -/
theorem extension_reconciler_checks_witness :
    extension_install_calls
      ⟨"vm1", "PowerState/running", true, false, "", "", false, false, 0, 0⟩
      [("AzureMonitorLinuxAgent", "Succeeded"), ("AzurePolicyforLinux", "Succeeded"),
       ("AADSSHLoginForLinux", "Succeeded"), ("GuestAttestation", "Succeeded")]
      "s" "g" "" = []
    ∧ (extension_install_calls
        ⟨"vm1", "PowerState/running", true, false, "", "", false, false, 0, 0⟩
        [] "s" "g" "").countP
        (is_monitor_agent_install
          ⟨"vm1", "PowerState/running", true, false, "", "", false, false, 0, 0⟩) = 1
    ∧ (extension_install_calls
        ⟨"vm1", "PowerState/running", true, false, "", "", false, false, 0, 0⟩
        [] "s" "g" "").countP
        (is_guest_configuration_install
          ⟨"vm1", "PowerState/running", true, false, "", "", false, false, 0, 0⟩) = 1
    ∧ (extension_install_calls
        ⟨"vm1", "PowerState/running", true, false, "", "", false, false, 0, 0⟩
        [] "s" "g" "").countP
        (is_aad_ssh_install
          ⟨"vm1", "PowerState/running", true, false, "", "", false, false, 0, 0⟩) = 1
    ∧ (extension_install_calls
        ⟨"vm1", "PowerState/running", true, false, "", "", false, false, 0, 0⟩
        [] "s" "g" "").countP
        (is_guest_attestation_install
          ⟨"vm1", "PowerState/running", true, false, "", "", false, false, 0, 0⟩) = 1 := by
  have hfull := extension_reconciler_checks
      ⟨"vm1", "PowerState/running", true, false, "", "", false, false, 0, 0⟩
      [("AzureMonitorLinuxAgent", "Succeeded"), ("AzurePolicyforLinux", "Succeeded"),
       ("AADSSHLoginForLinux", "Succeeded"), ("GuestAttestation", "Succeeded")]
      "s" "g" "" rfl
  have hempty := extension_reconciler_checks
      ⟨"vm1", "PowerState/running", true, false, "", "", false, false, 0, 0⟩
      [] "s" "g" "" rfl
  refine ⟨hfull.2.2.2.2.2.2.2.2.2.2 (by decide) (by decide) (by decide) (by decide),
    (hempty.2.2.2.2.2.2.1).trans (by decide),
    (hempty.2.2.2.2.2.2.2.1).trans (by decide),
    (hempty.2.2.2.2.2.2.2.2.1).trans (by decide),
    (hempty.2.2.2.2.2.2.2.2.2.1).trans (by decide)⟩
